import Mathlib

/-!
Verification of the generation-session state machine of the Vril backend
(`backend/app/models/*.py`, `backend/app/endpoints/*/router.py`,
`backend/app/services/product_pipeline.py`).

The Python records are embedded as Lean structures; Python dicts that are
used as key→value maps become association lists with Python assignment
(`d[k] = v`) and `dict.update` semantics; wall-clock timestamps become
explicit `Nat` parameters; HTTP exceptions become an explicit error type;
the external generation / reconstruction capabilities become explicit
result parameters.  Every endpoint function returns the session state that
is persisted after the call (the input state when the endpoint raised
before any save), so "session untouched" is expressible.
-/

/-- A JSON value stored in a dimensions dict: a number, or anything else
(the Python code only ever checks `isinstance(v, (int, float))`). -/
inductive DimVal where
  | num (q : ℚ)
  | nonnum (tag : String)
deriving DecidableEq

/-- A `Dict[str, float]`-shaped JSON object, as an association list. -/
abbrev Dims := List (String × DimVal)

/-- `PanelTexture` from `models/packaging_state.py`. -/
structure PanelTexture where
  panel_id : String
  texture_url : String
  prompt : String
  generated_at : Nat
  dimensions : Option Dims
deriving DecidableEq

/-- Panel-texture map of one shape, as an association list (Python dict). -/
abbrev Textures := List (String × PanelTexture)

/-- Python dict assignment `d[k] = v`: overwrite the value in place if the
key exists, else append the new pair at the end. -/
def dictInsert (d : Textures) (k : String) (v : PanelTexture) : Textures :=
  if (d.lookup k).isSome then
    d.map (fun kv => if kv.1 = k then (k, v) else kv)
  else
    d ++ [(k, v)]

/-- Python `old.update(new)`: assign every pair of `new` into `old`. -/
def dictUpdate (old new : Textures) : Textures :=
  new.foldl (fun acc kv => dictInsert acc kv.1 kv.2) old

/-- `ShapeState` from `models/packaging_state.py`. -/
structure ShapeState where
  dimensions : Dims
  panel_textures : Textures
deriving DecidableEq

/-- `_default_box_dimensions`. -/
def default_box_dimensions : Dims :=
  [("width", .num 100), ("height", .num 150), ("depth", .num 100)]

/-- `_default_cylinder_dimensions`. -/
def default_cylinder_dimensions : Dims :=
  [("width", .num 80), ("height", .num 150), ("depth", .num 80)]

/-- `PackagingState` from `models/packaging_state.py`.  `current_package_type`
is kept as a string, as in the source: every accessor branches on
equality with "cylinder" and treats anything else as the box. -/
structure PackagingState where
  current_package_type : String := "box"
  box_state : ShapeState := ⟨default_box_dimensions, []⟩
  cylinder_state : ShapeState := ⟨default_cylinder_dimensions, []⟩
  in_progress : Bool := false
  generating_panel : Option String := none
  generating_panels : List String := []
  bulk_generation_in_progress : Bool := false
  last_error : Option String := none
  created_at : Nat := 0
  updated_at : Nat := 0
deriving DecidableEq

namespace PackagingState

/-- Property `package_dimensions` (getter). -/
def package_dimensions (s : PackagingState) : Dims :=
  if s.current_package_type = "cylinder" then s.cylinder_state.dimensions
  else s.box_state.dimensions

/-- Property `package_dimensions` (setter). -/
def setPackageDimensions (s : PackagingState) (v : Dims) : PackagingState :=
  if s.current_package_type = "cylinder" then
    { s with cylinder_state := { s.cylinder_state with dimensions := v } }
  else
    { s with box_state := { s.box_state with dimensions := v } }

/-- Property `panel_textures` (getter). -/
def panel_textures (s : PackagingState) : Textures :=
  if s.current_package_type = "cylinder" then s.cylinder_state.panel_textures
  else s.box_state.panel_textures

/-- Property `panel_textures` (setter). -/
def setPanelTextures (s : PackagingState) (v : Textures) : PackagingState :=
  if s.current_package_type = "cylinder" then
    { s with cylinder_state := { s.cylinder_state with panel_textures := v } }
  else
    { s with box_state := { s.box_state with panel_textures := v } }

/-- Property `package_type` (setter). -/
def setPackageType (s : PackagingState) (v : String) : PackagingState :=
  { s with current_package_type := v }

/-- `PackagingState.set_panel_texture`. -/
def set_panel_texture (s : PackagingState) (panel_id : String)
    (texture : PanelTexture) (now : Nat) : PackagingState :=
  let s' :=
    if s.current_package_type = "cylinder" then
      { s with cylinder_state := { s.cylinder_state with
          panel_textures := dictInsert s.cylinder_state.panel_textures panel_id texture } }
    else
      { s with box_state := { s.box_state with
          panel_textures := dictInsert s.box_state.panel_textures panel_id texture } }
  { s' with updated_at := now }

/-- `PackagingState.get_panel_texture`. -/
def get_panel_texture (s : PackagingState) (panel_id : String) : Option PanelTexture :=
  s.panel_textures.lookup panel_id

/-- `PackagingState.atomic_update_textures`. -/
def atomic_update_textures (s : PackagingState) (new_textures : Textures)
    (replace : Bool) (now : Nat) : PackagingState :=
  let s' :=
    if replace then s.setPanelTextures new_textures
    else s.setPanelTextures (dictUpdate s.panel_textures new_textures)
  { s' with updated_at := now }

/-- `PackagingState.mark_error`. -/
def mark_error (s : PackagingState) (error_message : String) (now : Nat) : PackagingState :=
  { s with last_error := some error_message, in_progress := false,
           generating_panel := none, bulk_generation_in_progress := false,
           generating_panels := [], updated_at := now }

/-- One required dimension key is present with a numeric value. -/
def dimOk (dims : Dims) (k : String) : Bool :=
  match dims.lookup k with
  | some (.num _) => true
  | _ => false

/-- `PackagingState.has_valid_dimensions`: the three required keys are
present and numeric (the source checks membership and `isinstance`
numeric only — no positivity check). -/
def has_valid_dimensions (s : PackagingState) (shape_type : Option String) : Bool :=
  let target := shape_type.getD s.current_package_type
  let dims :=
    if target = "cylinder" then s.cylinder_state.dimensions
    else s.box_state.dimensions
  ["width", "height", "depth"].all (fun k => dimOk dims k)

/-- `PackagingState.ensure_valid_dimensions`. -/
def ensure_valid_dimensions (s : PackagingState) : PackagingState :=
  let s1 :=
    if s.has_valid_dimensions (some "box") then s
    else { s with box_state := { s.box_state with dimensions := default_box_dimensions } }
  if s1.has_valid_dimensions (some "cylinder") then s1
  else { s1 with cylinder_state := { s1.cylinder_state with dimensions := default_cylinder_dimensions } }

end PackagingState

/-- A raised Python exception: its class name and its `str(...)` message. -/
structure PyExc where
  cls : String
  msg : String
deriving DecidableEq

/-- A dimensions dict is well typed for the declared `Dict[str, float]`:
every value is numeric. -/
def dimsWellTyped (dims : Dims) : Bool :=
  dims.all (fun kv =>
    match kv.2 with
    | .num _ => true
    | .nonnum _ => false)

/-- `PackagingState.model_validate`: pydantic v2 re-validates the stored
blob against the declared field types, so a non-numeric value inside any
`Dict[str, float]` dimensions dict (a shape's dimensions or a stored panel
texture's dimensions) raises `ValidationError`; a well-typed blob is
returned unchanged. -/
def model_validate_packaging (s : PackagingState) : Except PyExc PackagingState :=
  if dimsWellTyped s.box_state.dimensions ∧ dimsWellTyped s.cylinder_state.dimensions ∧
     s.box_state.panel_textures.all (fun kv =>
       match kv.2.dimensions with
       | some d => dimsWellTyped d
       | none => true) ∧
     s.cylinder_state.panel_textures.all (fun kv =>
       match kv.2.dimensions with
       | some d => dimsWellTyped d
       | none => true)
  then .ok s
  else .error ⟨"ValidationError", "validation error for PackagingState"⟩

/-- `get_packaging_state`: deserialize the stored blob (default-construct
when absent), which re-validates it — raising on an ill-typed blob — and
then self-heal the dimensions of the validated record.  The Redis read is
modelled as the `payload` argument. -/
def get_packaging_state (payload : Option PackagingState) (now : Nat) :
    Except PyExc PackagingState :=
  match payload with
  | none => .ok (PackagingState.ensure_valid_dimensions { created_at := now, updated_at := now })
  | some s =>
    match model_validate_packaging s with
    | .ok s' => .ok s'.ensure_valid_dimensions
    | .error e => .error e

/-- A FastAPI `HTTPException` (status code and detail string). -/
structure HttpError where
  code : Nat
  detail : String
deriving DecidableEq

/-- `PanelGenerateRequest` from `endpoints/packaging/router.py`. -/
structure PanelGenerateRequest where
  panel_id : String
  prompt : String
  package_type : String
  panel_dimensions : Dims
  package_dimensions : Dims
  reference_mockup : Option String
deriving DecidableEq

/-- The synchronous part of the `POST /packaging/panels/generate` endpoint
(`generate_panel_texture`): the state written before the background task is
launched, together with the detected workflow.  The source has no busy
check on this path: it always marks the session in progress and saves. -/
def generate_panel_texture_start (state : PackagingState) (request : PanelGenerateRequest)
    (now : Nat) : PackagingState × String :=
  let existing := state.get_panel_texture request.panel_id
  let workflow := if existing.isSome then "edit" else "create"
  let s1 := state.setPackageType request.package_type
  let s2 := s1.setPackageDimensions request.package_dimensions
  let s3 := { s2 with in_progress := true, generating_panel := some request.panel_id,
                      last_error := none, updated_at := now }
  (s3, workflow)

/-- Outcome of `GET /packaging/panels/{panel_id}/texture`. -/
inductive TextureLookup where
  | found (panel_id texture_url prompt : String) (generated_at : Nat) (dimensions : Option Dims)
  | http (code : Nat) (detail : String)
deriving DecidableEq

/-- The `get_panel_texture` endpoint: 202 only when a single-panel run for
this very panel is active (`in_progress` and `generating_panel`), else 404. -/
def get_panel_texture_endpoint (state : PackagingState) (panel_id : String) : TextureLookup :=
  match state.get_panel_texture panel_id with
  | some t => .found panel_id t.texture_url t.prompt t.generated_at t.dimensions
  | none =>
    if state.in_progress ∧ state.generating_panel = some panel_id then
      .http 202 ("Texture generation in progress for panel " ++ panel_id)
    else
      .http 404 ("No texture found for panel " ++ panel_id)

/-- The `POST /packaging/update-dimensions` endpoint: set the package type,
then the active shape's dimensions, then save. -/
def update_dimensions (state : PackagingState) (package_type : String)
    (dims : Dims) (now : Nat) : PackagingState :=
  let s1 := state.setPackageType package_type
  let s2 := s1.setPackageDimensions dims
  { s2 with updated_at := now }

/-- One element of the `asyncio.gather` result inside `_generate_all`:
`(panel_id, texture_url or None, panel_dims or None)` — the inner
`generate_panel` catches every exception, so every result is a tuple. -/
abbrev PanelResult := String × Option String × Option Dims

/-- One step of the result-processing loop of `_generate_all`: a successful
tuple is assigned into the `generated_textures` dict, a failed one is
appended to `failed_panels`. -/
def processStep (prompt : String) (now : Nat) (acc : Textures × List String)
    (r : PanelResult) : Textures × List String :=
  match r with
  | (panel_id, some texture_url, panel_dims) =>
      (dictInsert acc.1 panel_id ⟨panel_id, texture_url, prompt, now, panel_dims⟩, acc.2)
  | (panel_id, none, _) => (acc.1, acc.2 ++ [panel_id])

/-- The result-processing loop of `_generate_all`: build the
`generated_textures` dict and the `failed_panels` list. -/
def processResults (results : List PanelResult) (prompt : String) (now : Nat) :
    Textures × List String :=
  results.foldl (processStep prompt now) ([], [])

/-- The bulk-failure summary message built in `_generate_all`. -/
def bulkErrorMsg (succeeded_count total_count : Nat) (failed_panels : List String) : String :=
  "Generated " ++ toString succeeded_count ++ "/" ++ toString total_count ++
    " textures. Failed: " ++ String.intercalate ", " failed_panels ++ " (old textures retained)"

/-- The single merge-and-save at the end of `_generate_all`: re-load the
session fresh (`final_state`), merge the successful textures into the active
shape, clear the bulk markers, set or clear `last_error`, save. -/
def generateAllCommit (final_state : PackagingState) (panel_ids : List String)
    (results : List PanelResult) (prompt : String) (now : Nat) : PackagingState :=
  let pr := processResults results prompt now
  let generated_textures := pr.1
  let failed_panels := pr.2
  let s1 :=
    if generated_textures.isEmpty then final_state
    else final_state.atomic_update_textures generated_textures false now
  let s2 := { s1 with bulk_generation_in_progress := false, generating_panel := none,
                      generating_panels := [] }
  let msg := bulkErrorMsg generated_textures.length panel_ids.length failed_panels
  let s3 :=
    if failed_panels.isEmpty then { s2 with last_error := none }
    else { s2 with last_error := some msg }
  { s3 with updated_at := now }

/-- `TrellisArtifacts` from `models/product_state.py`. -/
structure TrellisArtifacts where
  model_file : Option String := none
  color_video : Option String := none
  gaussian_ply : Option String := none
  normal_video : Option String := none
  combined_video : Option String := none
  no_background_images : List String := []
deriving DecidableEq

/-- `ProductIteration` from `models/product_state.py`.  `type` is kept as a
string ("create" or "edit"), `duration_seconds` as a rational. -/
structure ProductIteration where
  id : String
  type : String := "create"
  prompt : String
  images : List String := []
  trellis_output : Option TrellisArtifacts := none
  created_at : Nat := 0
  note : Option String := none
  duration_seconds : Option ℚ := none
deriving DecidableEq

/-- `ProductState` from `models/product_state.py`. -/
structure ProductState where
  prompt : Option String := none
  latest_instruction : Option String := none
  mode : String := "idle"
  status : String := "idle"
  message : Option String := none
  in_progress : Bool := false
  generation_started_at : Option Nat := none
  image_count : Nat := 3
  images : List String := []
  trellis_output : Option TrellisArtifacts := none
  iterations : List ProductIteration := []
  last_error : Option String := none
  created_at : Nat := 0
  updated_at : Nat := 0
deriving DecidableEq

/-- `ProductStatus` from `models/product_state.py` (the status projection). -/
structure ProductStatus where
  status : String := "idle"
  progress : Int := 0
  message : Option String := none
  error : Option String := none
  model_file : Option String := none
  preview_image : Option String := none
  updated_at : Nat := 0
deriving DecidableEq

namespace ProductState

/-- `ProductState.mark_error`. -/
def mark_error (s : ProductState) (error_message : String) (now : Nat) : ProductState :=
  { s with status := "error", message := some error_message,
           last_error := some error_message, in_progress := false, updated_at := now }

/-- `ProductState.mark_complete`. -/
def mark_complete (s : ProductState) (message : String) (now : Nat) : ProductState :=
  { s with status := "complete", message := some message, in_progress := false,
           generation_started_at := none, updated_at := now }

/-- `ProductState.mark_progress`. -/
def mark_progress (s : ProductState) (status : String) (message : Option String)
    (now : Nat) : ProductState :=
  let s' := { s with status := status }
  let s'' := match message with
    | some m => { s' with message := some m }
    | none => s'
  { s'' with updated_at := now }

end ProductState

/-- Python truthiness of an `Optional[str]`: `None` and `""` are falsy. -/
def pyTruthyStr : Option String → Bool
  | none => false
  | some s => s ≠ ""

/-- Python `a or b` on two `Optional[str]` values. -/
def pyOr (a b : Option String) : Option String :=
  if pyTruthyStr a then a else b

/-- `ProductPipelineService._update_status`: read the stored projection,
overwrite status/progress/message/error/updated_at unconditionally, keep the
stored artifact pointers when the incoming snapshot's are falsy. -/
def update_status (payload status : ProductStatus) : ProductStatus :=
  { payload with
      status := status.status, progress := status.progress,
      message := status.message, error := status.error,
      model_file := pyOr status.model_file payload.model_file,
      preview_image := pyOr status.preview_image payload.preview_image,
      updated_at := status.updated_at }

/-- `ProductPipelineService._determine_preview_image`. -/
def determine_preview_image (state : ProductState) : Option String :=
  match state.trellis_output with
  | some t =>
    if t.no_background_images ≠ [] then t.no_background_images.head?
    else if state.images ≠ [] then state.images.head? else none
  | none => if state.images ≠ [] then state.images.head? else none

/-- What a run of `_execute_flow` leaves behind: the persisted session, the
persisted status projection, the number of calls made to the
image-generation capability, and the exception that the flow caught, if
any. -/
structure FlowResult where
  state : ProductState
  statusProj : ProductStatus
  genCalls : Nat
  caught : Option PyExc
deriving DecidableEq

/-- The `except` branch of `_execute_flow`: `state.mark_error(str(exc))`,
save, and an error status write through `_update_status`. -/
def flowError (s : ProductState) (p : ProductStatus) (e : PyExc) (now : Nat)
    (genCalls : Nat) : FlowResult :=
  ⟨s.mark_error e.msg now,
   update_status p ⟨"error", 0, some "Pipeline failed", some e.msg, none, none, now⟩,
   genCalls, some e⟩

/-- `ProductPipelineService._execute_flow`.  The two capability calls are
modelled by their results: `genRes` is what
`gemini_image_service.generate_product_images` returns (or raises), and
`trellisRes` what the reconstruction step returns (or raises).  `proj0` is
the stored status projection that `_update_status` merges into. -/
def execute_flow (state0 : ProductState) (instruction mode : String)
    (genRes : Except PyExc (List String)) (trellisRes : Except PyExc TrellisArtifacts)
    (proj0 : ProductStatus) (now : Nat) (duration : ℚ) (iterId : String) : FlowResult :=
  let s1 := ProductState.mark_progress { state0 with in_progress := true }
      "generating_images" (some "Generating concept images") now
  let p1 := update_status proj0 ⟨"generating_images", 10, some "Generating concept images",
      none, none, none, now⟩
  match genRes with
  | .error e => flowError s1 p1 e now 1
  | .ok images =>
    if images.isEmpty then
      flowError s1 p1 ⟨"RuntimeError", "Gemini image pipeline returned no images"⟩ now 1
    else
      let s2 := { s1 with images := images, updated_at := now }
      let s3 := ProductState.mark_progress s2 "generating_model"
          (some "Generating 3D model with Trellis") now
      let p2 := update_status p1 ⟨"generating_model", 45,
          some "Generating 3D model with Trellis", none, none, none, now⟩
      match trellisRes with
      | .error e => flowError s3 p2 e now 1
      | .ok artifacts =>
        let iteration : ProductIteration :=
          ⟨iterId, mode, instruction, images, some artifacts, now, none, some duration⟩
        let s4 := ProductState.mark_complete
            { s3 with trellis_output := some artifacts,
                      iterations := s3.iterations ++ [iteration] } "3D asset generated" now
        let preview := determine_preview_image s4
        let p3 := update_status p2 ⟨"complete", 100, some "3D asset generated", none,
            artifacts.model_file, preview, now⟩
        ⟨s4, p3, 1, none⟩

/-- `_ensure_not_busy` from `endpoints/product/router.py`, as a predicate. -/
def ensure_not_busy_rejects (state : ProductState) : Bool :=
  state.in_progress

/-- `POST /product/create` (`start_create`): the returned pair is the session
state persisted by the call (unchanged when an HTTPException is raised) and
the response — the initial status payload on success. -/
def start_create (state : ProductState) (prompt : String) (image_count : Nat)
    (now : Nat) : ProductState × Except HttpError ProductStatus :=
  if ensure_not_busy_rejects state then
    (state, .error ⟨409, "Generation already running"⟩)
  else
    let payload : ProductStatus :=
      ⟨"pending", 0, some "Preparing product generation", none, none, none, now⟩
    let s := { state with
        prompt := some prompt, latest_instruction := some prompt, mode := "create",
        status := "pending", message := some "Preparing product generation",
        in_progress := true, generation_started_at := some now,
        image_count := image_count, images := [], trellis_output := none,
        iterations := [], last_error := none, updated_at := now }
    (s, .ok payload)

/-- `POST /product/edit` (`start_edit`): busy-guard, then the precondition
`not state.prompt or not state.images`, then the mutation and save. -/
def start_edit (state : ProductState) (instruction : String)
    (now : Nat) : ProductState × Except HttpError ProductStatus :=
  if ensure_not_busy_rejects state then
    (state, .error ⟨409, "Generation already running"⟩)
  else if ¬ pyTruthyStr state.prompt ∨ state.images = [] then
    (state, .error ⟨400, "No base product available to edit"⟩)
  else
    let payload : ProductStatus :=
      ⟨"pending", 0, some "Preparing edit request", none, none, none, now⟩
    let s := { state with
        latest_instruction := some instruction, mode := "edit", status := "pending",
        message := some "Preparing edit request", in_progress := true,
        generation_started_at := some now, updated_at := now }
    (s, .ok payload)

/-- `POST /product/recover` (`recover_state`).  `has_active_tasks` is the
value of `any(not task.done() for task in _background_tasks)` — true iff
some registered background task is unfinished.  The second component is the
`recovered` flag of the response. -/
def recover_state (state : ProductState) (has_active_tasks : Bool)
    (now : Nat) : ProductState × Bool :=
  if state.in_progress ∧ ¬ has_active_tasks then
    ({ state with in_progress := false, status := "idle",
                  message := some "Recovered from interrupted generation",
                  updated_at := now }, true)
  else
    (state, false)

/-- `POST /product/rewind/{iteration_index}` (`rewind_product`).  On success
the `Except` carries the status projection that the endpoint saves. -/
def rewind_product (state : ProductState) (iteration_index : Int)
    (now : Nat) : ProductState × Except HttpError ProductStatus :=
  if state.in_progress then
    (state, .error ⟨409, "Cannot rewind while generation is running"⟩)
  else if iteration_index < 0 ∨ (state.iterations.length : Int) ≤ iteration_index then
    (state, .error ⟨400, "Invalid iteration index"⟩)
  else
    match state.iterations[iteration_index.toNat]? with
    | none => (state, .error ⟨400, "Invalid iteration index"⟩)
    | some target =>
      let s := { state with
          iterations := state.iterations.take (iteration_index.toNat + 1),
          images := target.images,
          trellis_output := target.trellis_output,
          latest_instruction := some target.prompt,
          prompt := if target.type = "create" then some target.prompt else state.prompt,
          mode := target.type, status := "idle",
          message := some "Rewound to previous version",
          in_progress := false, last_error := none, updated_at := now }
      let preview :=
        match target.trellis_output with
        | some t => if t.no_background_images ≠ [] then t.no_background_images.head? else none
        | none => none
      let model_file :=
        match target.trellis_output with
        | some t => t.model_file
        | none => none
      let status_payload : ProductStatus :=
        ⟨"idle", 0, some "Rewound to previous version", none, model_file, preview, now⟩
      (s, .ok status_payload)


/-- Unfolding `List.lookup` on a cons cell. -/
theorem lookup_cons (k : String) (hd : String × PanelTexture) (tl : Textures) :
    (hd :: tl).lookup k = if k = hd.1 then some hd.2 else tl.lookup k := by
  cases hd with
  | mk a b =>
    simp only [List.lookup]
    by_cases h : k = a
    · subst h; simp
    · have hb : (k == a) = false := beq_eq_false_iff_ne.mpr h
      simp [hb, h]

/-- The overwrite pass of a dict assignment leaves other keys untouched. -/
theorem lookup_map_keyNe (tl : Textures) (k k' : String) (v : PanelTexture) (h : k' ≠ k) :
    (tl.map (fun kv => if kv.1 = k then (k, v) else kv)).lookup k' = tl.lookup k' := by
  induction tl with
  | nil => rfl
  | cons x xs ih =>
    by_cases hx : x.1 = k
    · rw [List.map_cons, if_pos hx, lookup_cons, lookup_cons]
      have h1 : ¬ k' = (k, v).1 := h
      have h2 : ¬ k' = x.1 := fun he => h (hx ▸ he)
      rw [if_neg h1, if_neg h2, ih]
    · rw [List.map_cons, if_neg hx, lookup_cons, lookup_cons, ih]

/-- The overwrite pass of a dict assignment installs the new value at the
assigned key when that key is present. -/
theorem lookup_map_keyEq (tl : Textures) (k : String) (v : PanelTexture)
    (h : (tl.lookup k).isSome) :
    (tl.map (fun kv => if kv.1 = k then (k, v) else kv)).lookup k = some v := by
  induction tl with
  | nil => simp [List.lookup] at h
  | cons x xs ih =>
    by_cases hx : x.1 = k
    · rw [List.map_cons, if_pos hx, lookup_cons]
      simp
    · rw [List.map_cons, if_neg hx, lookup_cons]
      have h2 : ¬ k = x.1 := fun he => hx he.symm
      rw [if_neg h2]
      rw [lookup_cons, if_neg h2] at h
      exact ih h

/-- Lookup distributes over append, preferring the left list. -/
theorem lookup_append_tex (a b : Textures) (k : String) :
    (a ++ b).lookup k =
      match a.lookup k with
      | some v => some v
      | none => b.lookup k := by
  induction a with
  | nil => simp [List.lookup]
  | cons x xs ih =>
    rw [List.cons_append, lookup_cons, lookup_cons]
    by_cases hx : k = x.1
    · simp [hx]
    · rw [if_neg hx, if_neg hx, ih]

/-- Lookup after a Python dict assignment: the assigned key maps to the new
value, every other key is untouched. -/
theorem lookup_dictInsert (d : Textures) (k k' : String) (v : PanelTexture) :
    (dictInsert d k v).lookup k' = if k' = k then some v else d.lookup k' := by
  rw [dictInsert]
  by_cases h : (d.lookup k).isSome
  · rw [if_pos h]
    by_cases h2 : k' = k
    · subst h2; rw [lookup_map_keyEq d k' v h, if_pos rfl]
    · rw [lookup_map_keyNe d k k' v h2, if_neg h2]
  · rw [if_neg h, lookup_append_tex]
    have hnone : d.lookup k = none := by
      cases hd : d.lookup k with
      | none => rfl
      | some x => rw [hd] at h; simp at h
    by_cases h2 : k' = k
    · subst h2; rw [hnone]; simp [lookup_cons]
    · rw [if_neg h2]
      cases hd : d.lookup k' with
      | some x => simp
      | none => simp [lookup_cons, h2]

/-- Every pair of a dict after an assignment is the assigned pair or one of
the previous pairs. -/
theorem mem_dictInsert {kv : String × PanelTexture} {d : Textures} {k : String}
    {v : PanelTexture} (h : kv ∈ dictInsert d k v) : kv = (k, v) ∨ kv ∈ d := by
  rw [dictInsert] at h
  by_cases hs : (d.lookup k).isSome
  · rw [if_pos hs] at h
    rcases List.mem_map.mp h with ⟨orig, horig, heq⟩
    by_cases ho : orig.1 = k
    · rw [if_pos ho] at heq; exact Or.inl heq.symm
    · rw [if_neg ho] at heq; exact Or.inr (heq ▸ horig)
  · rw [if_neg hs] at h
    rcases List.mem_append.mp h with h1 | h1
    · exact Or.inr h1
    · exact Or.inl (List.mem_singleton.mp h1)

/-- Looking a key up after `dict.update` when all of the new dict's values
are determined by their key: the new value wins where present, the old dict
answers elsewhere. -/
theorem lookup_dictUpdate_keyed (g : String → PanelTexture) (p : String) :
    ∀ (new old : Textures), (∀ kv ∈ new, kv.2 = g kv.1) →
      (dictUpdate old new).lookup p =
        if (new.lookup p).isSome then some (g p) else old.lookup p := by
  intro new
  induction new with
  | nil => intro old _; simp [dictUpdate, List.lookup]
  | cons x xs ih =>
    intro old hkv
    have hx : x.2 = g x.1 := hkv x (List.mem_cons_self _ _)
    have hxs : ∀ kv ∈ xs, kv.2 = g kv.1 := fun kv hm => hkv kv (List.mem_cons_of_mem _ hm)
    have hstep : dictUpdate old (x :: xs) = dictUpdate (dictInsert old x.1 x.2) xs := rfl
    rw [hstep, ih (dictInsert old x.1 x.2) hxs, lookup_cons, lookup_dictInsert]
    by_cases h1 : (xs.lookup p).isSome
    · rw [if_pos h1]
      by_cases h2 : p = x.1
      · simp [h2, h1]
      · rw [if_neg h2]
        rw [if_pos h1]
    · rw [if_neg h1]
      by_cases h2 : p = x.1
      · subst h2
        rw [if_pos rfl, if_pos (by simp), hx]
      · rw [if_neg h2, if_neg h2, if_neg h1]

/-- The gather results of `_generate_all`, one tuple per requested panel:
`outcome pid` is the texture URL the panel task produced (`none` when the
panel's generation failed or its task raised), `info pid` the panel's
dimensions from the request. -/
def mkPanelResults (panel_ids : List String) (outcome : String → Option String)
    (info : String → Dims) : List PanelResult :=
  panel_ids.map (fun pid =>
    match outcome pid with
    | some url => (pid, some url, some (info pid))
    | none => (pid, none, none))

/-- The texture a successful panel ends up with in the bulk batch. -/
def bulkTexture (outcome : String → Option String) (info : String → Dims)
    (prompt : String) (now : Nat) (pid : String) : PanelTexture :=
  ⟨pid, (outcome pid).getD "", prompt, now, some (info pid)⟩

/-- Frame lemma for the result-processing loop: a panel that is outside the
request set, or whose generation failed, is never assigned into the
`generated_textures` dict. -/
theorem processResults_lookup_frame (outcome : String → Option String)
    (info : String → Dims) (prompt : String) (now : Nat) (p : String) :
    ∀ (ids : List String) (acc : Textures × List String),
      (p ∉ ids ∨ outcome p = none) →
      ((mkPanelResults ids outcome info).foldl (processStep prompt now) acc).1.lookup p =
        acc.1.lookup p := by
  intro ids
  induction ids with
  | nil => intro acc _; rfl
  | cons q tl ih =>
    intro acc h
    have hstep : (mkPanelResults (q :: tl) outcome info).foldl (processStep prompt now) acc =
        (mkPanelResults tl outcome info).foldl (processStep prompt now)
          (processStep prompt now acc
            (match outcome q with
             | some url => (q, some url, some (info q))
             | none => (q, none, none))) := rfl
    have h' : p ∉ tl ∨ outcome p = none := by
      rcases h with h | h
      · exact Or.inl (fun hm => h (List.mem_cons_of_mem _ hm))
      · exact Or.inr h
    rw [hstep, ih _ h']
    cases hq : outcome q with
    | none => rfl
    | some url =>
      have hpq : ¬ p = q := by
        rintro rfl
        rcases h with h | h
        · exact h (List.mem_cons_self _ _)
        · rw [h] at hq; cases hq
      simp only [processStep, lookup_dictInsert, if_neg hpq]

/-- Success lemma for the result-processing loop: a requested panel whose
generation succeeded is assigned its new texture. -/
theorem processResults_lookup_success (outcome : String → Option String)
    (info : String → Dims) (prompt : String) (now : Nat) (p : String) (url : String) :
    ∀ (ids : List String) (acc : Textures × List String),
      p ∈ ids → outcome p = some url →
      ((mkPanelResults ids outcome info).foldl (processStep prompt now) acc).1.lookup p =
        some ⟨p, url, prompt, now, some (info p)⟩ := by
  intro ids
  induction ids with
  | nil => intro acc h _; cases h
  | cons q tl ih =>
    intro acc hmem hout
    have hstep : (mkPanelResults (q :: tl) outcome info).foldl (processStep prompt now) acc =
        (mkPanelResults tl outcome info).foldl (processStep prompt now)
          (processStep prompt now acc
            (match outcome q with
             | some url' => (q, some url', some (info q))
             | none => (q, none, none))) := rfl
    rw [hstep]
    by_cases htl : p ∈ tl
    · exact ih _ htl hout
    · have hpq : p = q := by
        rcases List.mem_cons.mp hmem with h | h
        · exact h
        · exact absurd h htl
      subst hpq
      rw [processResults_lookup_frame outcome info prompt now p tl _ (Or.inl htl)]
      rw [hout]
      simp [processStep, lookup_dictInsert]

/-- The `failed_panels` list collected by the result-processing loop is
exactly the requested panels whose generation produced no texture. -/
theorem processResults_failed (outcome : String → Option String)
    (info : String → Dims) (prompt : String) (now : Nat) :
    ∀ (ids : List String) (acc : Textures × List String),
      ((mkPanelResults ids outcome info).foldl (processStep prompt now) acc).2 =
        acc.2 ++ ids.filter (fun q => (outcome q).isNone) := by
  intro ids
  induction ids with
  | nil => intro acc; simp [mkPanelResults]
  | cons q tl ih =>
    intro acc
    have hstep : (mkPanelResults (q :: tl) outcome info).foldl (processStep prompt now) acc =
        (mkPanelResults tl outcome info).foldl (processStep prompt now)
          (processStep prompt now acc
            (match outcome q with
             | some url' => (q, some url', some (info q))
             | none => (q, none, none))) := rfl
    rw [hstep, ih]
    cases hq : outcome q with
    | none => simp [processStep, List.filter_cons, hq]
    | some url => simp [processStep, List.filter_cons, hq]

/-- Every value in the `generated_textures` dict is the bulk texture of its
key. -/
theorem processResults_mem_keyed (outcome : String → Option String)
    (info : String → Dims) (prompt : String) (now : Nat) :
    ∀ (ids : List String) (acc : Textures × List String),
      (∀ kv ∈ acc.1, kv.2 = bulkTexture outcome info prompt now kv.1) →
      ∀ kv ∈ ((mkPanelResults ids outcome info).foldl (processStep prompt now) acc).1,
        kv.2 = bulkTexture outcome info prompt now kv.1 := by
  intro ids
  induction ids with
  | nil => intro acc hacc kv hkv; exact hacc kv hkv
  | cons q tl ih =>
    intro acc hacc
    have hstep : (mkPanelResults (q :: tl) outcome info).foldl (processStep prompt now) acc =
        (mkPanelResults tl outcome info).foldl (processStep prompt now)
          (processStep prompt now acc
            (match outcome q with
             | some url' => (q, some url', some (info q))
             | none => (q, none, none))) := rfl
    rw [hstep]
    apply ih
    cases hq : outcome q with
    | none => exact hacc
    | some url =>
      intro kv hkv
      simp only [processStep] at hkv
      rcases mem_dictInsert hkv with h | h
      · rw [h]
        simp [bulkTexture, hq]
      · exact hacc kv h

/-- Writing the active shape's texture map and reading it back. -/
theorem panel_textures_set (s : PackagingState) (v : Textures) :
    (s.setPanelTextures v).panel_textures = v := by
  unfold PackagingState.setPanelTextures PackagingState.panel_textures
  by_cases h : s.current_package_type = "cylinder" <;> simp [h]

/-- A non-replacing `atomic_update_textures` merges into the active map. -/
theorem panel_textures_atomic_update (s : PackagingState) (new : Textures) (now : Nat) :
    (s.atomic_update_textures new false now).panel_textures =
      dictUpdate s.panel_textures new := by
  unfold PackagingState.atomic_update_textures
  simp only [if_neg (by simp : ¬ false = true)]
  have h : ∀ (x : PackagingState) (n : Nat),
      ({ x with updated_at := n } : PackagingState).panel_textures = x.panel_textures := by
    intro x n
    unfold PackagingState.panel_textures
    rfl
  rw [h, panel_textures_set]

/-- `setPanelTextures` does not touch the inactive shape or the selector. -/
theorem setPanelTextures_frame (s : PackagingState) (v : Textures) :
    (s.setPanelTextures v).current_package_type = s.current_package_type ∧
    ((s.setPanelTextures v).current_package_type = "cylinder" →
      (s.setPanelTextures v).box_state = s.box_state) ∧
    (¬ (s.setPanelTextures v).current_package_type = "cylinder" →
      (s.setPanelTextures v).cylinder_state = s.cylinder_state) := by
  unfold PackagingState.setPanelTextures
  by_cases h : s.current_package_type = "cylinder" <;> simp [h]

/-- The active texture map only depends on the selector and the two shapes. -/
theorem panel_textures_congr (s t : PackagingState)
    (h1 : s.current_package_type = t.current_package_type)
    (h2 : s.box_state = t.box_state) (h3 : s.cylinder_state = t.cylinder_state) :
    s.panel_textures = t.panel_textures := by
  unfold PackagingState.panel_textures
  rw [h1, h2, h3]

/-- The texture map the bulk commit leaves behind is the input map when no
panel succeeded, else the merge of the successes into the input map. -/
theorem generateAllCommit_panel_textures (state : PackagingState) (panel_ids : List String)
    (results : List PanelResult) (prompt : String) (now : Nat) :
    (generateAllCommit state panel_ids results prompt now).panel_textures =
      (if (processResults results prompt now).1.isEmpty then state
       else state.atomic_update_textures (processResults results prompt now).1 false now).panel_textures := by
  unfold generateAllCommit
  apply panel_textures_congr <;>
    by_cases hf : (processResults results prompt now).2.isEmpty <;> simp [hf]

/-- The bulk commit clears the bulk markers and sets or clears `last_error`
according to the failed-panel list. -/
theorem generateAllCommit_flags (state : PackagingState) (panel_ids : List String)
    (results : List PanelResult) (prompt : String) (now : Nat) :
    (generateAllCommit state panel_ids results prompt now).bulk_generation_in_progress = false ∧
    (generateAllCommit state panel_ids results prompt now).generating_panel = none ∧
    (generateAllCommit state panel_ids results prompt now).generating_panels = [] ∧
    (generateAllCommit state panel_ids results prompt now).last_error =
      (if (processResults results prompt now).2.isEmpty then none
       else some (bulkErrorMsg (processResults results prompt now).1.length panel_ids.length
         (processResults results prompt now).2)) := by
  unfold generateAllCommit
  by_cases hf : (processResults results prompt now).2.isEmpty <;> simp [hf]

/-- Pointwise description of the texture map after the bulk commit, for
gather results built from a per-panel outcome function. -/
theorem generateAllCommit_lookup (state : PackagingState) (panel_ids : List String)
    (outcome : String → Option String) (info : String → Dims)
    (prompt : String) (now : Nat) (p : String) :
    (generateAllCommit state panel_ids (mkPanelResults panel_ids outcome info) prompt now).panel_textures.lookup p =
      if p ∈ panel_ids ∧ (outcome p).isSome
      then some (bulkTexture outcome info prompt now p)
      else state.panel_textures.lookup p := by
  rw [generateAllCommit_panel_textures]
  have hkeyed : ∀ kv ∈ (processResults (mkPanelResults panel_ids outcome info) prompt now).1,
      kv.2 = bulkTexture outcome info prompt now kv.1 := by
    apply processResults_mem_keyed outcome info prompt now panel_ids ([], [])
    intro kv hkv
    cases hkv
  by_cases hc : p ∈ panel_ids ∧ (outcome p).isSome
  · obtain ⟨hmem, hsome⟩ := hc
    obtain ⟨url, hurl⟩ := Option.isSome_iff_exists.mp hsome
    have hlook : (processResults (mkPanelResults panel_ids outcome info) prompt now).1.lookup p =
        some ⟨p, url, prompt, now, some (info p)⟩ :=
      processResults_lookup_success outcome info prompt now p url panel_ids ([], []) hmem hurl
    have hne : ¬ (processResults (mkPanelResults panel_ids outcome info) prompt now).1.isEmpty := by
      intro habs
      rw [List.isEmpty_iff.mp habs] at hlook
      cases hlook
    rw [if_neg hne, panel_textures_atomic_update,
        lookup_dictUpdate_keyed (bulkTexture outcome info prompt now) p _ _ hkeyed,
        hlook]
    simp only [Option.isSome_some, if_pos (And.intro hmem hsome), if_pos rfl]
    simp [bulkTexture, hurl]
  · have hfr : (processResults (mkPanelResults panel_ids outcome info) prompt now).1.lookup p = none := by
      have h' : p ∉ panel_ids ∨ outcome p = none := by
        by_cases hm : p ∈ panel_ids
        · right
          by_cases ho : (outcome p).isSome
          · exact absurd ⟨hm, ho⟩ hc
          · exact Option.not_isSome_iff_eq_none.mp ho
        · exact Or.inl hm
      exact processResults_lookup_frame outcome info prompt now p panel_ids ([], []) h'
    rw [if_neg hc]
    by_cases hg : (processResults (mkPanelResults panel_ids outcome info) prompt now).1.isEmpty
    · rw [if_pos hg]
    · rw [if_neg hg, panel_textures_atomic_update,
          lookup_dictUpdate_keyed (bulkTexture outcome info prompt now) p _ _ hkeyed, hfr]
      simp

/-- The failed-panel list of a bulk run is exactly the requested panels whose
outcome was empty. -/
theorem processResults_failed_eq (outcome : String → Option String) (info : String → Dims)
    (prompt : String) (now : Nat) (panel_ids : List String) :
    (processResults (mkPanelResults panel_ids outcome info) prompt now).2 =
      panel_ids.filter (fun q => (outcome q).isNone) := by
  have h := processResults_failed outcome info prompt now panel_ids ([], [])
  simpa [processResults] using h

/-- C1: after a bulk run over `panel_ids` finishes, the single merge-and-save
installs each succeeded panel's new texture in the active shape's map
(overwriting a same-key entry), leaves every failed panel and every panel
outside the set with exactly its prior texture (or none), clears the bulk
markers, and sets `last_error` to a summary naming the succeeded/total count
and the failed panel ids when any panel failed, else clears it. -/
theorem C1_bulk_merge_commit (state : PackagingState) (panel_ids : List String)
    (outcome : String → Option String) (info : String → Dims)
    (prompt : String) (now : Nat) :
    (∀ p url, p ∈ panel_ids → outcome p = some url →
      (generateAllCommit state panel_ids (mkPanelResults panel_ids outcome info) prompt now).get_panel_texture p
        = some ⟨p, url, prompt, now, some (info p)⟩) ∧
    (∀ p, p ∉ panel_ids ∨ outcome p = none →
      (generateAllCommit state panel_ids (mkPanelResults panel_ids outcome info) prompt now).get_panel_texture p
        = state.get_panel_texture p) ∧
    (generateAllCommit state panel_ids (mkPanelResults panel_ids outcome info) prompt now).bulk_generation_in_progress = false ∧
    (generateAllCommit state panel_ids (mkPanelResults panel_ids outcome info) prompt now).generating_panel = none ∧
    (generateAllCommit state panel_ids (mkPanelResults panel_ids outcome info) prompt now).generating_panels = [] ∧
    (panel_ids.filter (fun q => (outcome q).isNone) = [] →
      (generateAllCommit state panel_ids (mkPanelResults panel_ids outcome info) prompt now).last_error = none) ∧
    (panel_ids.filter (fun q => (outcome q).isNone) ≠ [] →
      (generateAllCommit state panel_ids (mkPanelResults panel_ids outcome info) prompt now).last_error
        = some (bulkErrorMsg
            (processResults (mkPanelResults panel_ids outcome info) prompt now).1.length
            panel_ids.length
            (panel_ids.filter (fun q => (outcome q).isNone)))) := by
  have hfailed := processResults_failed_eq outcome info prompt now panel_ids
  obtain ⟨hb, hgp, hgps, herr⟩ :=
    generateAllCommit_flags state panel_ids (mkPanelResults panel_ids outcome info) prompt now
  refine ⟨?_, ?_, hb, hgp, hgps, ?_, ?_⟩
  · intro p url hmem hout
    unfold PackagingState.get_panel_texture
    rw [generateAllCommit_lookup, if_pos ⟨hmem, by rw [hout]; rfl⟩]
    simp [bulkTexture, hout]
  · intro p h
    unfold PackagingState.get_panel_texture
    rw [generateAllCommit_lookup, if_neg ?hneg]
    case hneg =>
      rintro ⟨hmem, hsome⟩
      rcases h with h | h
      · exact h hmem
      · rw [h] at hsome; cases hsome
  · intro hnone
    rw [herr, hfailed, if_pos (List.isEmpty_iff.mpr hnone)]
  · intro hne
    rw [herr, hfailed, if_neg (fun habs => hne (List.isEmpty_iff.mp habs))]

/-- Witness for C1: panels {front, back}, front succeeds and back fails;
front gets its new texture, back keeps its stored texture, the batch error
names back and the 1/2 count. -/
theorem C1_bulk_merge_commit_witness :
    (generateAllCommit
        { box_state := ⟨default_box_dimensions,
            [("back", ⟨"back", "old-back", "oldp", 1, none⟩),
             ("side", ⟨"side", "old-side", "oldp", 1, none⟩)]⟩,
          bulk_generation_in_progress := true, generating_panels := ["front", "back"] }
        ["front", "back"]
        (mkPanelResults ["front", "back"]
          (fun p => if p = "front" then some "u1" else none)
          (fun _ => [("width", .num 10)]))
        "p" 7).get_panel_texture "front"
      = some ⟨"front", "u1", "p", 7, some [("width", .num 10)]⟩ ∧
    (generateAllCommit
        { box_state := ⟨default_box_dimensions,
            [("back", ⟨"back", "old-back", "oldp", 1, none⟩),
             ("side", ⟨"side", "old-side", "oldp", 1, none⟩)]⟩,
          bulk_generation_in_progress := true, generating_panels := ["front", "back"] }
        ["front", "back"]
        (mkPanelResults ["front", "back"]
          (fun p => if p = "front" then some "u1" else none)
          (fun _ => [("width", .num 10)]))
        "p" 7).get_panel_texture "back"
      = some ⟨"back", "old-back", "oldp", 1, none⟩ ∧
    (generateAllCommit
        { box_state := ⟨default_box_dimensions,
            [("back", ⟨"back", "old-back", "oldp", 1, none⟩),
             ("side", ⟨"side", "old-side", "oldp", 1, none⟩)]⟩,
          bulk_generation_in_progress := true, generating_panels := ["front", "back"] }
        ["front", "back"]
        (mkPanelResults ["front", "back"]
          (fun p => if p = "front" then some "u1" else none)
          (fun _ => [("width", .num 10)]))
        "p" 7).last_error
      = some "Generated 1/2 textures. Failed: back (old textures retained)" := by
  have h := C1_bulk_merge_commit
    { box_state := ⟨default_box_dimensions,
        [("back", ⟨"back", "old-back", "oldp", 1, none⟩),
         ("side", ⟨"side", "old-side", "oldp", 1, none⟩)]⟩,
      bulk_generation_in_progress := true, generating_panels := ["front", "back"] }
    ["front", "back"]
    (fun p => if p = "front" then some "u1" else none)
    (fun _ => [("width", .num 10)])
    "p" 7
  refine ⟨h.1 "front" "u1" (by decide) rfl, ?_, ?_⟩
  · rw [h.2.1 "back" (Or.inr rfl)]
    rfl
  · rw [h.2.2.2.2.2.2 (by decide)]
    rfl

/-- C8: mutating the active shape's dimensions or panel textures, and
switching `current_shape`, never mutates the inactive shape's stored state;
switching away, mutating, and switching back leaves the untouched shape's
state exactly as before. -/
theorem C8_shape_isolation (s : PackagingState) (t pid : String) (tex : PanelTexture)
    (d newd : Dims) (newTex : Textures) (r : Bool) (n1 n2 n3 : Nat) :
    ((s.setPackageType t).box_state = s.box_state ∧
     (s.setPackageType t).cylinder_state = s.cylinder_state) ∧
    ((update_dimensions s "box" d n1).cylinder_state = s.cylinder_state ∧
     (update_dimensions s "cylinder" d n1).box_state = s.box_state) ∧
    (((s.setPackageType "box").set_panel_texture pid tex n2).cylinder_state = s.cylinder_state ∧
     ((s.setPackageType "cylinder").set_panel_texture pid tex n2).box_state = s.box_state) ∧
    (((s.setPackageType "box").atomic_update_textures newTex r n3).cylinder_state = s.cylinder_state ∧
     ((s.setPackageType "cylinder").atomic_update_textures newTex r n3).box_state = s.box_state) ∧
    (((((s.setPackageType "cylinder").set_panel_texture pid tex n2).setPackageDimensions newd).setPackageType "box").box_state = s.box_state ∧
     ((((s.setPackageType "box").set_panel_texture pid tex n2).setPackageDimensions newd).setPackageType "cylinder").cylinder_state = s.cylinder_state) := by
  refine ⟨⟨rfl, rfl⟩, ⟨?_, ?_⟩, ⟨?_, ?_⟩, ⟨?_, ?_⟩, ⟨?_, ?_⟩⟩
  · simp [update_dimensions, PackagingState.setPackageType, PackagingState.setPackageDimensions]
  · simp [update_dimensions, PackagingState.setPackageType, PackagingState.setPackageDimensions]
  · simp [PackagingState.setPackageType, PackagingState.set_panel_texture]
  · simp [PackagingState.setPackageType, PackagingState.set_panel_texture]
  · cases r <;>
      simp [PackagingState.setPackageType, PackagingState.atomic_update_textures,
        PackagingState.setPanelTextures]
  · cases r <;>
      simp [PackagingState.setPackageType, PackagingState.atomic_update_textures,
        PackagingState.setPanelTextures]
  · simp [PackagingState.setPackageType, PackagingState.set_panel_texture,
      PackagingState.setPackageDimensions]
  · simp [PackagingState.setPackageType, PackagingState.set_panel_texture,
      PackagingState.setPackageDimensions]

/-- Validity with an explicit "box" argument depends only on the box dims. -/
theorem has_valid_dimensions_box (s : PackagingState) :
    s.has_valid_dimensions (some "box") =
      ["width", "height", "depth"].all (fun k => PackagingState.dimOk s.box_state.dimensions k) := by
  rfl

/-- Validity with an explicit "cylinder" argument depends only on the
cylinder dims. -/
theorem has_valid_dimensions_cylinder (s : PackagingState) :
    s.has_valid_dimensions (some "cylinder") =
      ["width", "height", "depth"].all (fun k => PackagingState.dimOk s.cylinder_state.dimensions k) := by
  rfl

/-- Box dims after self-healing: untouched when valid, defaulted when not. -/
theorem ensure_box_dims (s : PackagingState) :
    s.ensure_valid_dimensions.box_state.dimensions =
      if s.has_valid_dimensions (some "box") then s.box_state.dimensions
      else default_box_dimensions := by
  unfold PackagingState.ensure_valid_dimensions
  by_cases h1 : s.has_valid_dimensions (some "box")
  · simp only [h1, if_true]
    by_cases h2 : s.has_valid_dimensions (some "cylinder") <;> simp [h2]
  · simp only [h1, Bool.false_eq_true, if_false]
    set s' : PackagingState :=
      { s with box_state := { s.box_state with dimensions := default_box_dimensions } } with hs'
    by_cases h2 : s'.has_valid_dimensions (some "cylinder") <;> simp [h2, hs']

/-- Cylinder dims after self-healing: untouched when valid, defaulted when
not. -/
theorem ensure_cyl_dims (s : PackagingState) :
    s.ensure_valid_dimensions.cylinder_state.dimensions =
      if s.has_valid_dimensions (some "cylinder") then s.cylinder_state.dimensions
      else default_cylinder_dimensions := by
  unfold PackagingState.ensure_valid_dimensions
  by_cases h1 : s.has_valid_dimensions (some "box")
  · simp only [h1, if_true]
    by_cases h2 : s.has_valid_dimensions (some "cylinder") <;> simp [h2]
  · simp only [h1, Bool.false_eq_true, if_false]
    set s' : PackagingState :=
      { s with box_state := { s.box_state with dimensions := default_box_dimensions } } with hs'
    have hsame : s'.has_valid_dimensions (some "cylinder") = s.has_valid_dimensions (some "cylinder") := by
      rw [has_valid_dimensions_cylinder, has_valid_dimensions_cylinder]
    by_cases h2 : s.has_valid_dimensions (some "cylinder") <;> simp [hsame, h2, hs']

/-- `model_validate` returns the record unchanged when it succeeds. -/
theorem model_validate_ok_eq {s s' : PackagingState}
    (h : model_validate_packaging s = .ok s') : s' = s := by
  unfold model_validate_packaging at h
  split at h
  · exact (Except.ok.inj h).symm
  · cases h

/-- Counterexample to C6: a stored box dimension set with zero width and
negative height is well typed, so validation succeeds, and it passes
`has_valid_dimensions` (which only checks presence and numeric type), so
the load returns the stored record unchanged — the width is 0, not
positive and not the default. -/
theorem C6_dims_selfheal_cex :
    (get_packaging_state
        (some { box_state := ⟨[("width", DimVal.num 0), ("height", DimVal.num (-5)),
                               ("depth", DimVal.num 100)], []⟩ }) 9).toOption
      = some { box_state := ⟨[("width", DimVal.num 0), ("height", DimVal.num (-5)),
                              ("depth", DimVal.num 100)], []⟩ } ∧
    ({ box_state := ⟨[("width", DimVal.num 0), ("height", DimVal.num (-5)),
                      ("depth", DimVal.num 100)], []⟩ }
        : PackagingState).box_state.dimensions.lookup "width" = some (DimVal.num 0) ∧
    (∀ q : ℚ,
      ({ box_state := ⟨[("width", DimVal.num 0), ("height", DimVal.num (-5)),
                        ("depth", DimVal.num 100)], []⟩ }
          : PackagingState).box_state.dimensions.lookup "width" = some (DimVal.num q) →
      ¬ 0 < q) := by
  refine ⟨by decide, by decide, ?_⟩
  intro q hq
  have h0 : ({ box_state := ⟨[("width", DimVal.num 0), ("height", DimVal.num (-5)),
                  ("depth", DimVal.num 100)], []⟩ }
      : PackagingState).box_state.dimensions.lookup "width" = some (DimVal.num 0) := by
    decide
  rw [h0] at hq
  have : (0 : ℚ) = q := by
    injection hq with h
    injection h
  rw [← this]
  exact lt_irrefl 0

/-- C6 (amended): every load that returns a record yields, for each shape,
dimensions containing all of width/height/depth with numeric values; stored
dimensions missing a required key are replaced by that shape's default
dimensions rather than returned as stored, while zero or negative numeric
values pass the check and are returned as stored.  (A stored non-numeric
dimension value fails pydantic validation, so the load raises instead of
returning a record.) -/
theorem C6_dims_selfheal_amended (payload : Option PackagingState) (now : Nat) :
    (∀ s, get_packaging_state payload now = Except.ok s →
      s.has_valid_dimensions (some "box") = true ∧
      s.has_valid_dimensions (some "cylinder") = true ∧
      (∀ s1, payload = some s1 → s1.has_valid_dimensions (some "box") = false →
        s.box_state.dimensions = default_box_dimensions) ∧
      (∀ s1, payload = some s1 → s1.has_valid_dimensions (some "cylinder") = false →
        s.cylinder_state.dimensions = default_cylinder_dimensions)) ∧
    (∀ s1, payload = some s1 →
      (dimsWellTyped s1.box_state.dimensions = false ∨
       dimsWellTyped s1.cylinder_state.dimensions = false) →
      get_packaging_state payload now
        = Except.error ⟨"ValidationError", "validation error for PackagingState"⟩) := by
  have hmain : ∀ s : PackagingState,
      s.ensure_valid_dimensions.has_valid_dimensions (some "box") = true ∧
      s.ensure_valid_dimensions.has_valid_dimensions (some "cylinder") = true := by
    intro s
    constructor
    · rw [has_valid_dimensions_box, ensure_box_dims]
      by_cases h : s.has_valid_dimensions (some "box")
      · rw [if_pos h, ← has_valid_dimensions_box]
        exact h
      · rw [if_neg h]
        decide
    · rw [has_valid_dimensions_cylinder, ensure_cyl_dims]
      by_cases h : s.has_valid_dimensions (some "cylinder")
      · rw [if_pos h, ← has_valid_dimensions_cylinder]
        exact h
      · rw [if_neg h]
        decide
  constructor
  · intro s hok
    cases payload with
    | none =>
      have hs : PackagingState.ensure_valid_dimensions
          { created_at := now, updated_at := now } = s := Except.ok.inj hok
      rw [← hs]
      refine ⟨(hmain _).1, (hmain _).2, ?_, ?_⟩
      · intro s1 h hbad
        cases h
      · intro s1 h hbad
        cases h
    | some s0 =>
      cases hv : model_validate_packaging s0 with
      | error e =>
        have hget : get_packaging_state (some s0) now = .error e := by
          simp only [get_packaging_state, hv]
        rw [hget] at hok
        cases hok
      | ok s0' =>
        have hs0' : s0' = s0 := model_validate_ok_eq hv
        subst hs0'
        have hget : get_packaging_state (some s0') now = .ok s0'.ensure_valid_dimensions := by
          simp only [get_packaging_state, hv]
        rw [hget] at hok
        have hs : s0'.ensure_valid_dimensions = s := Except.ok.inj hok
        rw [← hs]
        refine ⟨(hmain _).1, (hmain _).2, ?_, ?_⟩
        · intro s1 h hbad
          have h1 : s1 = s0' := (Option.some.inj h).symm
          subst h1
          rw [ensure_box_dims, if_neg (by simp [hbad])]
        · intro s1 h hbad
          have h1 : s1 = s0' := (Option.some.inj h).symm
          subst h1
          rw [ensure_cyl_dims, if_neg (by simp [hbad])]
  · intro s1 h hbad
    subst h
    have hv : model_validate_packaging s1
        = .error ⟨"ValidationError", "validation error for PackagingState"⟩ := by
      unfold model_validate_packaging
      rw [if_neg ?hcond]
      case hcond =>
        rintro ⟨h1, h2, -, -⟩
        rcases hbad with hb | hb
        · rw [hb] at h1
          cases h1
        · rw [hb] at h2
          cases h2
    simp only [get_packaging_state, hv]

/-- Witness for the amended C6: loading a stored state whose box dims miss
height and depth returns a record whose box is reset to the defaults and
valid, with a stored zero cylinder width returned as stored; loading a
state whose box width is the string "wide" fails validation. -/
theorem C6_dims_selfheal_amended_witness :
    ({ box_state := ⟨default_box_dimensions, []⟩,
       cylinder_state := ⟨[("width", DimVal.num 0), ("height", DimVal.num 150),
                           ("depth", DimVal.num 80)], []⟩ }
        : PackagingState).has_valid_dimensions (some "box") = true ∧
    ({ box_state := ⟨default_box_dimensions, []⟩,
       cylinder_state := ⟨[("width", DimVal.num 0), ("height", DimVal.num 150),
                           ("depth", DimVal.num 80)], []⟩ }
        : PackagingState).box_state.dimensions = default_box_dimensions ∧
    get_packaging_state
        (some { box_state := ⟨[("width", DimVal.nonnum "wide"), ("height", DimVal.num 150),
                               ("depth", DimVal.num 100)], []⟩ }) 3
      = Except.error ⟨"ValidationError", "validation error for PackagingState"⟩ := by
  have h := C6_dims_selfheal_amended
    (some { box_state := ⟨[("width", DimVal.num 10)], []⟩,
            cylinder_state := ⟨[("width", DimVal.num 0), ("height", DimVal.num 150),
                                ("depth", DimVal.num 80)], []⟩ }) 3
  have hb := C6_dims_selfheal_amended
    (some { box_state := ⟨[("width", DimVal.nonnum "wide"), ("height", DimVal.num 150),
                           ("depth", DimVal.num 100)], []⟩ }) 3
  have hok : get_packaging_state
      (some { box_state := ⟨[("width", DimVal.num 10)], []⟩,
              cylinder_state := ⟨[("width", DimVal.num 0), ("height", DimVal.num 150),
                                  ("depth", DimVal.num 80)], []⟩ }) 3
      = Except.ok { box_state := ⟨default_box_dimensions, []⟩,
                    cylinder_state := ⟨[("width", DimVal.num 0), ("height", DimVal.num 150),
                                        ("depth", DimVal.num 80)], []⟩ } := by
    rfl
  refine ⟨(h.1 _ hok).1, (h.1 _ hok).2.2.1 _ rfl (by decide), hb.2 _ rfl (Or.inl (by decide))⟩

/-- Counterexample to C9: during a bulk run covering panel "front"
(`bulk_generation_in_progress` set, "front" in `generating_panels`,
no stored texture), the lookup returns the 404 "not found" signal rather
than a "generation in progress" signal, because the endpoint only consults
`in_progress`/`generating_panel`, which bulk runs never set. -/
theorem C9_texture_lookup_cex :
    ({ bulk_generation_in_progress := true, generating_panels := ["front"] }
        : PackagingState).get_panel_texture "front" = none ∧
    ({ bulk_generation_in_progress := true, generating_panels := ["front"] }
        : PackagingState).bulk_generation_in_progress = true ∧
    "front" ∈ ({ bulk_generation_in_progress := true, generating_panels := ["front"] }
        : PackagingState).generating_panels ∧
    get_panel_texture_endpoint
        { bulk_generation_in_progress := true, generating_panels := ["front"] } "front"
      = .http 404 "No texture found for panel front" := by
  decide

/-- C9 (amended): for a panel with no stored texture, the endpoint answers
with the distinct 202 in-progress signal exactly when a single-panel
generation for that very panel is active (`in_progress` true and
`generating_panel` equal to the panel), and with the 404 not-found signal in
every other case — including while a bulk run covering the panel is
active. -/
theorem C9_texture_lookup_amended (s : PackagingState) (pid : String)
    (h : s.get_panel_texture pid = none) :
    get_panel_texture_endpoint s pid =
      (if s.in_progress ∧ s.generating_panel = some pid
       then .http 202 ("Texture generation in progress for panel " ++ pid)
       else .http 404 ("No texture found for panel " ++ pid)) := by
  unfold get_panel_texture_endpoint
  rw [h]

/-- Witness for the amended C9: a single-panel run on "front" makes the
lookup of "front" answer 202. -/
theorem C9_texture_lookup_amended_witness :
    get_panel_texture_endpoint
        { in_progress := true, generating_panel := some "front" } "front"
      = .http 202 "Texture generation in progress for panel front" := by
  have h := C9_texture_lookup_amended
    { in_progress := true, generating_panel := some "front" } "front" (by decide)
  rw [h]
  decide

/-- Counterexample to C2: the single packaging-panel endpoint has no busy
guard — started on a session with `in_progress = true`, it does not reject
and it mutates the saved session (it installs the generating marker). -/
theorem C2_busy_guard_cex :
    ({ in_progress := true } : PackagingState).in_progress = true ∧
    ({ in_progress := true } : PackagingState).generating_panel = none ∧
    (generate_panel_texture_start { in_progress := true }
        ⟨"front", "make it red", "box", [("width", DimVal.num 10)],
         [("width", DimVal.num 10), ("height", DimVal.num 20), ("depth", DimVal.num 5)],
         none⟩ 5).1.generating_panel = some "front" ∧
    (generate_panel_texture_start { in_progress := true }
        ⟨"front", "make it red", "box", [("width", DimVal.num 10)],
         [("width", DimVal.num 10), ("height", DimVal.num 20), ("depth", DimVal.num 5)],
         none⟩ 5).1 ≠ ({ in_progress := true } : PackagingState) := by
  decide

/-- C2 (amended): for product create and product edit, a session with
`in_progress = true` is rejected with the 409 "already running" signal and
the persisted session is byte-for-byte unchanged.  (The single
packaging-panel endpoint performs no such check.) -/
theorem C2_busy_guard_amended (state : ProductState) (prompt instruction : String)
    (image_count now : Nat) (h : state.in_progress = true) :
    start_create state prompt image_count now
      = (state, .error ⟨409, "Generation already running"⟩) ∧
    start_edit state instruction now
      = (state, .error ⟨409, "Generation already running"⟩) := by
  unfold start_create start_edit ensure_not_busy_rejects
  rw [h]
  exact ⟨rfl, rfl⟩

/-- Witness for the amended C2 at a concrete busy session. -/
theorem C2_busy_guard_amended_witness :
    start_create { in_progress := true } "a blue speaker" 3 4
      = ({ in_progress := true }, .error ⟨409, "Generation already running"⟩) ∧
    start_edit { in_progress := true } "make it red" 4
      = ({ in_progress := true }, .error ⟨409, "Generation already running"⟩) :=
  C2_busy_guard_amended { in_progress := true } "a blue speaker" "make it red" 3 4 rfl

/-- Counterexample to C3: rewinding to a create iteration leaves
`mode = "create"`, not the idle value — the endpoint restores the target
iteration's kind into `mode` instead of resetting it to "idle". -/
theorem C3_rewind_cex :
    (rewind_product
        { prompt := some "p0", images := ["img1"],
          iterations := [⟨"it1", "create", "p0", ["img0"], none, 1, none, none⟩] }
        0 5).1.mode = "create" ∧
    (rewind_product
        { prompt := some "p0", images := ["img1"],
          iterations := [⟨"it1", "create", "p0", ["img0"], none, 1, none, none⟩] }
        0 5).1.mode ≠ "idle" ∧
    (rewind_product
        { prompt := some "p0", images := ["img1"],
          iterations := [⟨"it1", "create", "p0", ["img0"], none, 1, none, none⟩] }
        0 5).2.toOption.isSome = true := by
  refine ⟨rfl, by decide, rfl⟩

/-- C3 (amended): a rewind to a valid index truncates the log to length i+1
and restores images, reconstruction output, and latest instruction (and
prompt for a create target) from the target's snapshot; status, in_progress,
and last_error are reset to the clean idle values, while `mode` is set to
the target iteration's kind, not to "idle". -/
theorem C3_rewind_amended (state : ProductState) (i : Int) (now : Nat)
    (target : ProductIteration)
    (hbusy : state.in_progress = false)
    (hlo : 0 ≤ i) (hhi : i < (state.iterations.length : Int))
    (htgt : state.iterations[i.toNat]? = some target) :
    (rewind_product state i now).1 = { state with
        iterations := state.iterations.take (i.toNat + 1),
        images := target.images,
        trellis_output := target.trellis_output,
        latest_instruction := some target.prompt,
        prompt := if target.type = "create" then some target.prompt else state.prompt,
        mode := target.type, status := "idle",
        message := some "Rewound to previous version",
        in_progress := false, last_error := none, updated_at := now } ∧
    (rewind_product state i now).1.iterations.length = i.toNat + 1 ∧
    (rewind_product state i now).2.toOption.isSome = true := by
  have hred : rewind_product state i now = (⟨{ state with
        iterations := state.iterations.take (i.toNat + 1),
        images := target.images,
        trellis_output := target.trellis_output,
        latest_instruction := some target.prompt,
        prompt := if target.type = "create" then some target.prompt else state.prompt,
        mode := target.type, status := "idle",
        message := some "Rewound to previous version",
        in_progress := false, last_error := none, updated_at := now },
      .ok ⟨"idle", 0, some "Rewound to previous version", none,
        (match target.trellis_output with
         | some t => t.model_file
         | none => none),
        (match target.trellis_output with
         | some t => if t.no_background_images ≠ [] then t.no_background_images.head? else none
         | none => none), now⟩⟩ : ProductState × Except HttpError ProductStatus) := by
    unfold rewind_product
    rw [if_neg (by simp [hbusy])]
    rw [if_neg (by rintro (h | h) <;> omega)]
    rw [htgt]
  refine ⟨by rw [hred], ?_, by rw [hred]; rfl⟩
  rw [hred]
  have hlt : i.toNat < state.iterations.length := by omega
  simp only [List.length_take]
  omega

/-- Witness for the amended C3: rewinding a two-iteration session to index 0
restores the create snapshot and truncates the log to length 1. -/
theorem C3_rewind_amended_witness :
    (rewind_product
        { prompt := some "p0", latest_instruction := some "e1", mode := "edit",
          images := ["img1"],
          iterations := [⟨"it1", "create", "p0", ["img0"], none, 1, none, none⟩,
                         ⟨"it2", "edit", "e1", ["img1"], none, 2, none, none⟩] }
        0 9).1.images = ["img0"] ∧
    (rewind_product
        { prompt := some "p0", latest_instruction := some "e1", mode := "edit",
          images := ["img1"],
          iterations := [⟨"it1", "create", "p0", ["img0"], none, 1, none, none⟩,
                         ⟨"it2", "edit", "e1", ["img1"], none, 2, none, none⟩] }
        0 9).1.iterations.length = 1 ∧
    (rewind_product
        { prompt := some "p0", latest_instruction := some "e1", mode := "edit",
          images := ["img1"],
          iterations := [⟨"it1", "create", "p0", ["img0"], none, 1, none, none⟩,
                         ⟨"it2", "edit", "e1", ["img1"], none, 2, none, none⟩] }
        0 9).1.last_error = none := by
  have h := C3_rewind_amended
    { prompt := some "p0", latest_instruction := some "e1", mode := "edit",
      images := ["img1"],
      iterations := [⟨"it1", "create", "p0", ["img0"], none, 1, none, none⟩,
                     ⟨"it2", "edit", "e1", ["img1"], none, 2, none, none⟩] }
    0 9 ⟨"it1", "create", "p0", ["img0"], none, 1, none, none⟩
    rfl (by decide) (by decide) rfl
  refine ⟨?_, h.2.1, ?_⟩
  · rw [h.1]
  · rw [h.1]

/-- C5: recovery forces the session to idle with the "recovered" message iff
`in_progress` is true and no registered background task is unfinished; with
a live task, or with `in_progress` already false, it is a no-op reporting
not-recovered — so after a genuine recovery a second call is a no-op. -/
theorem C5_recovery (state : ProductState) (now now2 : Nat)
    (h : state.in_progress = true) :
    (∀ (s' : ProductState) (n : Nat), recover_state s' true n = (s', false)) ∧
    (∀ (s' : ProductState) (n : Nat), s'.in_progress = false →
      recover_state s' false n = (s', false)) ∧
    (recover_state state false now).2 = true ∧
    (recover_state state false now).1.in_progress = false ∧
    (recover_state state false now).1.status = "idle" ∧
    (recover_state state false now).1.message
      = some "Recovered from interrupted generation" ∧
    recover_state (recover_state state false now).1 false now2
      = ((recover_state state false now).1, false) := by
  have hlive : ∀ (s' : ProductState) (n : Nat), recover_state s' true n = (s', false) := by
    intro s' n
    unfold recover_state
    simp
  have hidle : ∀ (s' : ProductState) (n : Nat), s'.in_progress = false →
      recover_state s' false n = (s', false) := by
    intro s' n h'
    unfold recover_state
    simp [h']
  have hrec1 : (recover_state state false now).1 = { state with in_progress := false, status := "idle", message := some "Recovered from interrupted generation", updated_at := now } := by
    unfold recover_state
    simp [h]
  have hrec2 : (recover_state state false now).2 = true := by
    unfold recover_state
    simp [h]
  refine ⟨hlive, hidle, hrec2, ?_, ?_, ?_, ?_⟩
  · rw [hrec1]
  · rw [hrec1]
  · rw [hrec1]
  · apply hidle
    rw [hrec1]

/-- Witness for C5 at a concrete busy orphaned session. -/
theorem C5_recovery_witness :
    recover_state ({ in_progress := true } : ProductState) true 3
      = ({ in_progress := true }, false) ∧
    (recover_state ({ in_progress := true } : ProductState) false 3).2 = true ∧
    recover_state (recover_state ({ in_progress := true } : ProductState) false 3).1 false 4
      = ((recover_state ({ in_progress := true } : ProductState) false 3).1, false) := by
  have h := C5_recovery { in_progress := true } 3 4 rfl
  exact ⟨h.1 _ 3, h.2.2.1, h.2.2.2.2.2.2⟩

/-- C7: the synchronous precondition failures — a product edit with no prior
successful create (falsy prompt or empty images), and a rewind with an
out-of-bounds index — are rejected with no mutation of the persisted
session. -/
theorem C7_precondition_rejections (state : ProductState) (instruction : String)
    (i : Int) (now : Nat) :
    ((pyTruthyStr state.prompt = false ∨ state.images = []) →
      (start_edit state instruction now).1 = state ∧
      (start_edit state instruction now).2.toOption = none) ∧
    ((i < 0 ∨ (state.iterations.length : Int) ≤ i) →
      (rewind_product state i now).1 = state ∧
      (rewind_product state i now).2.toOption = none) := by
  constructor
  · intro h
    have hpre : ¬ pyTruthyStr state.prompt = true ∨ state.images = [] := by
      rcases h with h | h
      · exact Or.inl (by simp [h])
      · exact Or.inr h
    by_cases hb : ensure_not_busy_rejects state = true
    · unfold start_edit
      rw [if_pos hb]
      exact ⟨rfl, rfl⟩
    · unfold start_edit
      rw [if_neg hb, if_pos hpre]
      exact ⟨rfl, rfl⟩
  · intro h
    by_cases hb : state.in_progress = true
    · unfold rewind_product
      rw [if_pos hb]
      exact ⟨rfl, rfl⟩
    · unfold rewind_product
      rw [if_neg hb, if_pos h]
      exact ⟨rfl, rfl⟩

/-- Witness for C7: editing a fresh empty session is rejected untouched, and
rewinding it to index 0 (out of bounds for an empty log) is rejected
untouched. -/
theorem C7_precondition_rejections_witness :
    ((start_edit ({} : ProductState) "make it red" 2).1 = ({} : ProductState) ∧
     (start_edit ({} : ProductState) "make it red" 2).2.toOption = none) ∧
    ((rewind_product ({} : ProductState) 0 2).1 = ({} : ProductState) ∧
     (rewind_product ({} : ProductState) 0 2).2.toOption = none) := by
  have h := C7_precondition_rejections ({} : ProductState) "make it red" 0 2
  exact ⟨h.1 (Or.inl rfl), h.2 (Or.inr (by decide))⟩

/-- A run that ended in the `except` branch: session phase error with
`last_error` set, busy flag cleared, and the status projection carrying the
original exception message verbatim. -/
def flowFailed (r : FlowResult) (msg : String) : Prop :=
  r.state.status = "error" ∧ r.state.last_error = some msg ∧
  r.state.in_progress = false ∧ r.statusProj.status = "error" ∧
  r.statusProj.error = some msg

/-- C4: an empty image-generation result fails the run with a
RuntimeError-class error carrying the fixed message; the capability is
invoked exactly once per run (no orchestrator retry); and on that or any
other exception the session phase becomes error, `last_error` and the status
projection's error field carry the original message verbatim, and
`in_progress` is cleared. -/
theorem C4_capability_failure (state : ProductState) (instruction mode : String)
    (genRes : Except PyExc (List String)) (trellisRes : Except PyExc TrellisArtifacts)
    (proj : ProductStatus) (now : Nat) (duration : ℚ) (iterId : String)
    (e : PyExc) (images : List String) (himg : images ≠ []) :
    (execute_flow state instruction mode genRes trellisRes proj now duration iterId).genCalls = 1 ∧
    (execute_flow state instruction mode (.ok []) trellisRes proj now duration iterId).caught
      = some ⟨"RuntimeError", "Gemini image pipeline returned no images"⟩ ∧
    flowFailed (execute_flow state instruction mode (.ok []) trellisRes proj now duration iterId)
      "Gemini image pipeline returned no images" ∧
    flowFailed (execute_flow state instruction mode (.error e) trellisRes proj now duration iterId)
      e.msg ∧
    flowFailed (execute_flow state instruction mode (.ok images) (.error e) proj now duration iterId)
      e.msg := by
  have himg' : images.isEmpty = false := by
    cases images with
    | nil => exact absurd rfl himg
    | cons a as => rfl
  refine ⟨?_, rfl, ⟨rfl, rfl, rfl, rfl, rfl⟩, ⟨rfl, rfl, rfl, rfl, rfl⟩, ?_⟩
  · cases genRes with
    | error e' => rfl
    | ok imgs =>
      by_cases hi : imgs.isEmpty
      · simp [execute_flow, hi, flowError]
      · cases trellisRes with
        | error e' => simp [execute_flow, hi, flowError]
        | ok a => simp [execute_flow, hi]
  · simp [flowFailed, execute_flow, himg', flowError, update_status,
      ProductState.mark_error, ProductState.mark_progress]

/-- Witness for C4: a concrete create run whose generation returns zero
images ends in the error state with the fixed RuntimeError message. -/
theorem C4_capability_failure_witness :
    (execute_flow ({} : ProductState) "a blue speaker" "create"
        (.ok []) (.ok {}) ({} : ProductStatus) 6 2 "iter_1").caught
      = some ⟨"RuntimeError", "Gemini image pipeline returned no images"⟩ ∧
    flowFailed (execute_flow ({} : ProductState) "a blue speaker" "create"
        (.ok []) (.ok {}) ({} : ProductStatus) 6 2 "iter_1")
      "Gemini image pipeline returned no images" ∧
    flowFailed (execute_flow ({} : ProductState) "a blue speaker" "create"
        (.ok ["img1"]) (.error ⟨"ValueError", "boom"⟩) ({} : ProductStatus) 6 2 "iter_1")
      "boom" := by
  have h := C4_capability_failure ({} : ProductState) "a blue speaker" "create"
    (.ok []) (.ok {}) ({} : ProductStatus) 6 2 "iter_1"
    ⟨"ValueError", "boom"⟩ ["img1"] (by decide)
  exact ⟨h.2.1, h.2.2.1, h.2.2.2.2⟩

/-- C10: the status-projection merge keeps the stored artifact pointers when
the incoming snapshot carries null for them, and overwrites status,
progress, message, error, and updated_at unconditionally. -/
theorem C10_status_merge (payload status : ProductStatus) :
    (status.model_file = none →
      (update_status payload status).model_file = payload.model_file) ∧
    (status.preview_image = none →
      (update_status payload status).preview_image = payload.preview_image) ∧
    (update_status payload status).status = status.status ∧
    (update_status payload status).progress = status.progress ∧
    (update_status payload status).message = status.message ∧
    (update_status payload status).error = status.error ∧
    (update_status payload status).updated_at = status.updated_at := by
  refine ⟨?_, ?_, rfl, rfl, rfl, rfl, rfl⟩
  · intro h
    simp [update_status, pyOr, pyTruthyStr, h]
  · intro h
    simp [update_status, pyOr, pyTruthyStr, h]

/-- Witness for C10: an error update with null artifact pointers keeps the
stored model file and preview image while taking the new error. -/
theorem C10_status_merge_witness :
    (update_status { model_file := some "m1", preview_image := some "p1" }
        { status := "error", error := some "boom" }).model_file = some "m1" ∧
    (update_status { model_file := some "m1", preview_image := some "p1" }
        { status := "error", error := some "boom" }).preview_image = some "p1" ∧
    (update_status { model_file := some "m1", preview_image := some "p1" }
        { status := "error", error := some "boom" }).error = some "boom" := by
  have h := C10_status_merge { model_file := some "m1", preview_image := some "p1" }
    { status := "error", error := some "boom" }
  exact ⟨h.1 rfl, h.2.1 rfl, h.2.2.2.2.2.1⟩
